import Mathlib

/-!
Shallow embedding of the `lirilabs/crime-server` repository.

The repository is a serverless HTTP handler (`src/api/index.js`, the current
revision) plus an earlier revision of the folder reader
(`src/unnamed/part_000`).  Both talk to a remote GitHub-style content store.
The remote store is modelled as an oracle (`Remote` below): a record of
functions giving, for each path, the directory listing, the file-content
fetch outcome, the HTTP status of a metadata GET, and the response bodies of
PUT / DELETE calls.  Asynchronous JS functions become pure Lean functions of
that oracle; recursion over the remote tree is bounded by an explicit fuel
argument (the JS code recurses without bound on the remote's answers).

Platform builtins used by the source are embedded as executable Lean
functions: `jsonParse` stands in for `JSON.parse` (a recursive-descent
parser of the JSON grammar returning `Option Json`), the `stringify*`
functions stand in for `JSON.stringify` (string escaping is approximated:
the usual backslash escapes, no `\u` escaping of other control characters),
and base64 transcoding (`Buffer.from(...).toString(...)`) is passed in as
explicit `enc` / `dec` parameters where the source uses it.
-/

/-- Json values, the result type of the embedded `JSON.parse`.  Numbers are
kept as their source text; nothing in the repository inspects parsed
numbers. -/
inductive Json where
  | null : Json
  | bool (b : Bool) : Json
  | num (s : String) : Json
  | str (s : String) : Json
  | arr (xs : List Json) : Json
  | obj (kvs : List (String × Json)) : Json

/-- Whitespace skipping of the JSON grammar. -/
def skipWs : List Char → List Char
  | [] => []
  | c :: rest =>
    if c = ' ' ∨ c = '\n' ∨ c = '\t' ∨ c = '\r' then skipWs rest else c :: rest

/-- Hex digit test for `\u` escapes. -/
def isHexDigit (c : Char) : Bool :=
  ('0' ≤ c ∧ c ≤ '9') ∨ ('a' ≤ c ∧ c ≤ 'f') ∨ ('A' ≤ c ∧ c ≤ 'F')

/-- Numeric value of a hex digit. -/
def hexVal (c : Char) : Nat :=
  if '0' ≤ c ∧ c ≤ '9' then c.toNat - '0'.toNat
  else if 'a' ≤ c ∧ c ≤ 'f' then c.toNat - 'a'.toNat + 10
  else if 'A' ≤ c ∧ c ≤ 'F' then c.toNat - 'A'.toNat + 10
  else 0

/-- Translation of a single-character JSON escape. -/
def unescapeChar (c : Char) : Char :=
  if c = 'b' then Char.ofNat 8
  else if c = 'f' then Char.ofNat 12
  else if c = 'n' then '\n'
  else if c = 'r' then '\r'
  else if c = 't' then '\t'
  else c

/-- Body of a JSON string literal, after the opening quote.  Returns the
decoded content and the input remaining after the closing quote; `none` when
the literal is unterminated, contains a raw control character, or has a bad
escape — the cases where `JSON.parse` throws. -/
def parseStringBody : List Char → Option (String × List Char)
  | [] => none
  | '"' :: rest => some ("", rest)
  | '\\' :: e :: rest =>
    if e = '"' ∨ e = '\\' ∨ e = '/' ∨ e = 'b' ∨ e = 'f' ∨ e = 'n' ∨ e = 'r' ∨ e = 't' then
      match parseStringBody rest with
      | some (s, r) => some (String.singleton (unescapeChar e) ++ s, r)
      | none => none
    else if e = 'u' then
      match rest with
      | a :: b :: c :: d :: rest2 =>
        if isHexDigit a ∧ isHexDigit b ∧ isHexDigit c ∧ isHexDigit d then
          match parseStringBody rest2 with
          | some (s, r) =>
            some (String.singleton
              (Char.ofNat (4096 * hexVal a + 256 * hexVal b + 16 * hexVal c + hexVal d)) ++ s, r)
          | none => none
        else none
      | _ => none
    else none
  | c :: rest =>
    if c.toNat < 32 then none
    else
      match parseStringBody rest with
      | some (s, r) => some (String.singleton c ++ s, r)
      | none => none

/-- Longest digit run at the front of the input. -/
def spanDigits : List Char → List Char × List Char
  | [] => ([], [])
  | c :: rest =>
    if c.isDigit then
      let (ds, r) := spanDigits rest
      (c :: ds, r)
    else ([], c :: rest)

/-- Number token of the JSON grammar: optional minus, integer part with no
leading zero, optional fraction, optional exponent.  Returns the matched
text and the remaining input. -/
def parseNumber (cs : List Char) : Option (String × List Char) :=
  let (sign, cs1) :=
    match cs with
    | '-' :: rest => ("-", rest)
    | rest => ("", rest)
  match cs1 with
  | c :: rest =>
    if ¬ c.isDigit then none
    else if c = '0' then some (sign ++ "0", rest)
    else
      let (ds, r) := spanDigits rest
      some (sign ++ String.singleton c ++ String.mk ds, r)
  | [] => none

/-- Fraction part `.digits`, if present. -/
def parseFrac (cs : List Char) : Option (String × List Char) :=
  match cs with
  | '.' :: rest =>
    match spanDigits rest with
    | ([], _) => none
    | (ds, r) => some ("." ++ String.mk ds, r)
  | rest => some ("", rest)

/-- Exponent part `e[+-]digits`, if present. -/
def parseExp (cs : List Char) : Option (String × List Char) :=
  match cs with
  | e :: rest =>
    if e = 'e' ∨ e = 'E' then
      let (sg, rest2) :=
        match rest with
        | '+' :: r => ("+", r)
        | '-' :: r => ("-", r)
        | r => ("", r)
      match spanDigits rest2 with
      | ([], _) => none
      | (ds, r) => some (String.singleton e ++ sg ++ String.mk ds, r)
    else some ("", e :: rest)
  | [] => some ("", [])

/-- Full JSON number: integer, fraction and exponent parts. -/
def parseNumberFull (cs : List Char) : Option (String × List Char) :=
  match parseNumber cs with
  | none => none
  | some (i, r1) =>
    match parseFrac r1 with
    | none => none
    | some (f, r2) =>
      match parseExp r2 with
      | none => none
      | some (x, r3) => some (i ++ f ++ x, r3)

mutual

/-- JSON value parser; the fuel bounds the nesting depth. -/
def parseValue : Nat → List Char → Option (Json × List Char)
  | 0, _ => none
  | fuel + 1, cs =>
    match skipWs cs with
    | '"' :: rest =>
      match parseStringBody rest with
      | some (s, r) => some (.str s, r)
      | none => none
    | '{' :: rest =>
      match skipWs rest with
      | '}' :: r2 => some (.obj [], r2)
      | cs2 =>
        match parseMembers fuel cs2 with
        | some (kvs, r2) =>
          match skipWs r2 with
          | '}' :: r3 => some (.obj kvs, r3)
          | _ => none
        | none => none
    | '[' :: rest =>
      match skipWs rest with
      | ']' :: r2 => some (.arr [], r2)
      | cs2 =>
        match parseElements fuel cs2 with
        | some (xs, r2) =>
          match skipWs r2 with
          | ']' :: r3 => some (.arr xs, r3)
          | _ => none
        | none => none
    | 't' :: 'r' :: 'u' :: 'e' :: rest => some (.bool true, rest)
    | 'f' :: 'a' :: 'l' :: 's' :: 'e' :: rest => some (.bool false, rest)
    | 'n' :: 'u' :: 'l' :: 'l' :: rest => some (.null, rest)
    | cs2 =>
      match parseNumberFull cs2 with
      | some (s, r) => some (.num s, r)
      | none => none

/-- Comma-separated array elements. -/
def parseElements : Nat → List Char → Option (List Json × List Char)
  | 0, _ => none
  | fuel + 1, cs =>
    match parseValue fuel cs with
    | none => none
    | some (v, r) =>
      match skipWs r with
      | ',' :: r2 =>
        match parseElements fuel r2 with
        | some (xs, r3) => some (v :: xs, r3)
        | none => none
      | r2 => some ([v], r2)

/-- Comma-separated object members. -/
def parseMembers : Nat → List Char → Option (List (String × Json) × List Char)
  | 0, _ => none
  | fuel + 1, cs =>
    match skipWs cs with
    | '"' :: rest =>
      match parseStringBody rest with
      | none => none
      | some (k, r) =>
        match skipWs r with
        | ':' :: r2 =>
          match parseValue fuel r2 with
          | none => none
          | some (v, r3) =>
            match skipWs r3 with
            | ',' :: r4 =>
              match parseMembers fuel r4 with
              | some (kvs, r5) => some ((k, v) :: kvs, r5)
              | none => none
            | r4 => some ([(k, v)], r4)
        | _ => none
    | _ => none

end

/-- Embedded `JSON.parse`: parse a complete JSON document, requiring the
whole input to be consumed; `none` models a thrown `SyntaxError`. -/
def jsonParse (s : String) : Option Json :=
  match parseValue (2 * s.data.length + 2) s.data with
  | some (v, rest) => if skipWs rest = [] then some v else none
  | none => none

/-- Suffix of the input strictly after the first occurrence of the two
characters star slash; `none` when no such occurrence exists. -/
def findClose : List Char → Option (List Char)
  | '*' :: '/' :: rest => some rest
  | _ :: rest => findClose rest
  | [] => none

/-- Worker for the multi-line-comment strip, source line 31: the regex
replaces each lazy match `/* ... */` by the empty string; an opener with no
closer matches nothing (and then nothing later can match either).  Each step
consumes at least one character, so fuel = input length suffices. -/
def stripBlockF : Nat → List Char → List Char
  | 0, cs => cs
  | _, [] => []
  | fuel + 1, '/' :: '*' :: rest =>
    match findClose rest with
    | some rest2 => stripBlockF fuel rest2
    | none => '/' :: '*' :: rest
  | fuel + 1, c :: rest => c :: stripBlockF fuel rest

/-- Multi-line comment removal, `rawContent.replace(/\/\*[\s\S]*?\*\//g, '')`
at source line 31 of `src/api/index.js`. -/
def stripBlockComments (s : String) : String :=
  String.mk (stripBlockF s.data.length s.data)

/-- Drop up to (but not including) the next line terminator: the JS dot does
not match a line terminator, so `//...` matches stop at the end of the
line. -/
def dropLine : List Char → List Char
  | [] => []
  | c :: rest => if c = '\n' ∨ c = '\r' then c :: rest else dropLine rest

/-- Worker for the single-line-comment strip, source line 32. -/
def stripLineF : Nat → List Char → List Char
  | 0, cs => cs
  | _, [] => []
  | fuel + 1, '/' :: '/' :: rest => stripLineF fuel (dropLine rest)
  | fuel + 1, c :: rest => c :: stripLineF fuel rest

/-- Single-line comment removal, `.replace(/\/\/.*/g, '')` at source
line 32 of `src/api/index.js`. -/
def stripLineComments (s : String) : String :=
  String.mk (stripLineF s.data.length s.data)

/-- Combined cleaning applied to `.json` files before parsing,
source lines 30-32: block comments are removed first, then line
comments. -/
def cleanJson (s : String) : String :=
  stripLineComments (stripBlockComments s)

/-- Suffix test, the semantics of the JS `filename.endsWith(suffix)` used
at source line 28 (and in the `src/unnamed/part_000` revision): the suffix
read backwards starts the reversed string. -/
def strEndsWith (s suffix : String) : Bool :=
  List.isPrefixOf suffix.data.reverse s.data.reverse

/-- Result of `parseContent`: either a parsed JSON value or plain text (the
JS function returns either the `JSON.parse` result or a string). -/
inductive Content where
  | json (v : Json) : Content
  | text (s : String) : Content

/-- Embedding of `parseContent(rawContent, filename)`, `src/api/index.js`
lines 25-41: for `.json` filenames, strip comment-shaped substrings and try
`JSON.parse`; on a parse error (or for any other filename) return the raw
content unchanged. -/
def parseContent (rawContent filename : String) : Content :=
  if strEndsWith filename ".json" then
    match jsonParse (cleanJson rawContent) with
    | some v => .json v
    | none => .text rawContent
  else .text rawContent

/-!
The remote collaborator.  Every remote capability the source touches is a
field of one oracle record; a concrete oracle fixes the remote store's
answers for one scenario.
-/

/-- Outcome of fetching one file's content through the API
(`src/api/index.js` lines 66-87).  `ok` carries the content already decoded
from the response's base64 `content` field to text (the transcoding is the
collaborator's); `httpError` is a response with `!fileResp.ok`; `exn` is an
exception thrown anywhere in the `try` block, carrying `error.message`. -/
inductive FetchResult where
  | ok (content : String) : FetchResult
  | httpError (status : Nat) : FetchResult
  | exn (msg : String) : FetchResult
deriving DecidableEq

/-- Boolean success test for a fetch outcome. -/
def FetchResult.isOk : FetchResult → Bool
  | .ok _ => true
  | _ => false

/-- One element of a directory listing returned by the remote store
(the fields of a GitHub contents-API item that the source reads). -/
structure RawEntry where
  name : String
  type : String
  sha : String
  path : String
  size : Nat
  html_url : String
  download_url : String
deriving DecidableEq

/-- Parsed body of a directory-listing response: either a JSON array of
entries or some other JSON value (`!Array.isArray(arr)`), carried as its
raw text. -/
inductive ListingResult where
  | arr (entries : List RawEntry) : ListingResult
  | nonArray (raw : String) : ListingResult
deriving DecidableEq

/-- Oracle for the remote content store.  `listing path` is the parsed body
of `GET contents/path`; `fetchFile path` the content fetch of a file at
`path`; `getStatus`/`getSha`/`getContent` the status and body fields of the
metadata GET used by the CRUD operations; `putResult`/`deleteResult` the
response bodies (as raw JSON text, passed through by the source) of the
PUT and DELETE calls; `download url` the text fetch of a `download_url`
used by the `src/unnamed/part_000` revision (`Except.error` is a thrown
exception's message). -/
structure Remote where
  listing : String → ListingResult
  fetchFile : String → FetchResult
  getStatus : String → Nat
  getSha : String → String
  getContent : String → String
  putResult : String → String
  deleteResult : String → String
  download : String → Except String String

/-!
The tree data model and the recursive folder reader of `src/api/index.js`.
-/

/-- Tree node assembled by `readFolder` (`src/api/index.js` lines 54-117):
a directory node (lines 56-62) or a file node; a file node carries either
parsed content (lines 95-103) or `content: null` plus an `error` field
(lines 71-80 and 106-115). -/
inductive Node where
  | dir (name sha path : String) (children : List Node) : Node
  | file (name sha path : String) (content : Option Content)
      (error : Option String) (size : Nat) (url : String) : Node

/-- Name of a node, its `name` field. -/
def Node.nameOf : Node → String
  | .dir n _ _ _ => n
  | .file n _ _ _ _ _ _ => n

/-- Path of a node, its `path` field. -/
def Node.pathOf : Node → String
  | .dir _ _ p _ => p
  | .file _ _ p _ _ _ _ => p

/-- Embedding of `readFolder(path)`, `src/api/index.js` lines 46-120: list
the path; if the response body is not an array return `[]` (line 51);
otherwise build one node per entry in listing order (the body of the `for`
loop at lines 54-117): a `dir` entry recurses into its path; a file entry
fetches content, degrading a failed fetch (lines 69-82) or a thrown error
(lines 104-116) into a node with `content: null` and an `error` string, and
parsing successful content with `parseContent`.  The fuel bounds the
recursion depth into subdirectories; the JS recursion is unbounded. -/
def readFolder : Nat → Remote → String → List Node
  | 0, _, _ => []
  | fuel + 1, remote, path =>
    match remote.listing path with
    | .nonArray _ => []
    | .arr entries =>
      entries.map fun item =>
        if item.type == "dir" then
          .dir item.name item.sha item.path (readFolder fuel remote item.path)
        else
          match remote.fetchFile item.path with
          | .ok raw =>
            .file item.name item.sha item.path (some (parseContent raw item.name))
              none item.size item.html_url
          | .httpError status =>
            .file item.name item.sha item.path none
              (some ("Failed to fetch content: " ++ toString status)) item.size item.html_url
          | .exn msg =>
            .file item.name item.sha item.path none (some msg) item.size item.html_url

/-- Node built from one listing entry, the loop body of `readFolder` as a
named function of the entry (children read with the remaining fuel). -/
def entryNode (fuel : Nat) (remote : Remote) (item : RawEntry) : Node :=
  if item.type == "dir" then
    .dir item.name item.sha item.path (readFolder fuel remote item.path)
  else
    match remote.fetchFile item.path with
    | .ok raw =>
      .file item.name item.sha item.path (some (parseContent raw item.name))
        none item.size item.html_url
    | .httpError status =>
      .file item.name item.sha item.path none
        (some ("Failed to fetch content: " ++ toString status)) item.size item.html_url
    | .exn msg =>
      .file item.name item.sha item.path none (some msg) item.size item.html_url

/-- JS object update `shaMap[item.path] = item.sha` on an association list
that remembers insertion order: overwrite an existing key, else append. -/
def objSet (m : List (String × String)) (k v : String) : List (String × String) :=
  if m.any (fun p => p.1 == k) then
    m.map (fun p => if p.1 == k then (k, v) else p)
  else m ++ [(k, v)]

/-- Key list of an association list. -/
def keysOf (m : List (String × String)) : List String :=
  m.map Prod.fst

/-- Embedding of the inner `traverse(items)` of `buildShaMap`
(`src/api/index.js` lines 125-132): for each item in order, record
`path ↦ sha`, and recurse into a directory's children before moving to the
next sibling. -/
def traverseSha : List Node → List (String × String) → List (String × String)
  | [], acc => acc
  | .dir _ sha path children :: rest, acc =>
    traverseSha rest (traverseSha children (objSet acc path sha))
  | .file _ sha path _ _ _ _ :: rest, acc =>
    traverseSha rest (objSet acc path sha)

/-- Embedding of `buildShaMap(structure)`, `src/api/index.js`
lines 123-135. -/
def buildShaMap (struct : List Node) : List (String × String) :=
  traverseSha struct []

/-- Paths of all nodes of a forest, in traversal order. -/
def pathsF : List Node → List String
  | [] => []
  | .dir _ _ p children :: rest => p :: (pathsF children ++ pathsF rest)
  | .file _ _ p _ _ _ _ :: rest => p :: pathsF rest

/-- Snapshot `{structure, shaMap}` of `getSnapshot`
(`src/api/index.js` lines 138-142); the source field `structure` is a Lean
keyword and is named `struct` here. -/
structure Snapshot where
  struct : List Node
  shaMap : List (String × String)

/-- Embedding of `getSnapshot()`, `src/api/index.js` lines 138-142. -/
def getSnapshot (fuel : Nat) (remote : Remote) : Snapshot :=
  let s := readFolder fuel remote ""
  { struct := s, shaMap := buildShaMap s }

/-!
The earlier revision of the folder reader, `src/unnamed/part_000`.
-/

/-- Content of a file in the `src/unnamed/part_000` revision
(`readFileContent`, lines 20-37): parsed JSON, an
`{invalidJson: true, raw}` object, plain text, or an `{error}` object from
a thrown exception. -/
inductive ContentV0 where
  | json (v : Json) : ContentV0
  | invalidJson (raw : String) : ContentV0
  | text (s : String) : ContentV0
  | errObj (msg : String) : ContentV0

mutual

/-- Tree node of the `src/unnamed/part_000` revision (lines 53-66). -/
inductive NodeV0 where
  | dir (name path : String) (children : TreeV0) : NodeV0
  | file (name path download_url : String) (content : ContentV0) : NodeV0

/-- Result of `readFolder` in the `src/unnamed/part_000` revision: a list of
nodes, or the in-band `{error: true, raw: data}` object returned at
lines 45-47 when the listing body is not an array. -/
inductive TreeV0 where
  | nodes (l : List NodeV0) : TreeV0
  | errorRaw (raw : String) : TreeV0

end

/-- Embedding of `readFileContent(item)`, `src/unnamed/part_000`
lines 20-37. -/
def readFileContentV0 (remote : Remote) (item : RawEntry) : ContentV0 :=
  match remote.download item.download_url with
  | .error e => .errObj e
  | .ok text =>
    if strEndsWith item.name ".json" then
      match jsonParse text with
      | some v => .json v
      | none => .invalidJson text
    else .text text

/-- Embedding of `readFolder(path)` of the `src/unnamed/part_000` revision,
lines 40-71: a non-array listing body yields the in-band error object
`{error: true, raw: data}`, returned to the immediate caller. -/
def readFolderV0 : Nat → Remote → String → TreeV0
  | 0, _, _ => .nodes []
  | fuel + 1, remote, path =>
    match remote.listing path with
    | .nonArray raw => .errorRaw raw
    | .arr entries =>
      .nodes (entries.map fun item =>
        if item.type == "dir" then
          .dir item.name item.path (readFolderV0 fuel remote item.path)
        else
          .file item.name item.path item.download_url (readFileContentV0 remote item))

/-!
Serialization (the embedded `JSON.stringify`) and the broadcaster, watcher
and CRUD operations of `src/api/index.js`.
-/

/-- Escape of one character inside a JSON string literal (the usual
backslash escapes; other control characters are left as-is, an
approximation of `JSON.stringify`). -/
def escChar (c : Char) : String :=
  if c = '"' then "\\\""
  else if c = '\\' then "\\\\"
  else if c = '\n' then "\\n"
  else if c = '\r' then "\\r"
  else if c = '\t' then "\\t"
  else String.singleton c

/-- Quoted, escaped JSON string literal. -/
def jstr (s : String) : String :=
  "\"" ++ String.join (s.data.map escChar) ++ "\""

mutual

/-- Serialization of a Json value, standing in for `JSON.stringify` on
parsed file content. -/
def stringifyJson : Json → String
  | .null => "null"
  | .bool true => "true"
  | .bool false => "false"
  | .num s => s
  | .str s => jstr s
  | .arr xs => "[" ++ stringifyJsonList xs ++ "]"
  | .obj kvs => "\x7b" ++ stringifyJsonPairs kvs ++ "\x7d"

/-- Comma-joined serialization of array elements. -/
def stringifyJsonList : List Json → String
  | [] => ""
  | [x] => stringifyJson x
  | x :: rest => stringifyJson x ++ "," ++ stringifyJsonList rest

/-- Comma-joined serialization of object members. -/
def stringifyJsonPairs : List (String × Json) → String
  | [] => ""
  | [(k, v)] => jstr k ++ ":" ++ stringifyJson v
  | (k, v) :: rest => jstr k ++ ":" ++ stringifyJson v ++ "," ++ stringifyJsonPairs rest

end

/-- Serialization of a file node's `content` field. -/
def stringifyContent : Option Content → String
  | none => "null"
  | some (.json v) => stringifyJson v
  | some (.text s) => jstr s

mutual

/-- Serialization of one tree node, with the field order in which the
source constructs the objects (`src/api/index.js` lines 56-62, 71-80,
95-103, 106-115); the `error` field is present exactly when the node was
built by a failure branch. -/
def stringifyNode : Node → String
  | .dir name sha path children =>
    "\x7b\"name\":" ++ jstr name ++ ",\"type\":\"directory\",\"sha\":" ++ jstr sha ++
      ",\"path\":" ++ jstr path ++ ",\"children\":[" ++ stringifyForest children ++ "]\x7d"
  | .file name sha path content err size url =>
    "\x7b\"name\":" ++ jstr name ++ ",\"type\":\"file\",\"sha\":" ++ jstr sha ++
      ",\"path\":" ++ jstr path ++ ",\"content\":" ++ stringifyContent content ++
      (match err with
       | none => ""
       | some e => ",\"error\":" ++ jstr e) ++
      ",\"size\":" ++ toString size ++ ",\"url\":" ++ jstr url ++ "\x7d"

/-- Comma-joined serialization of a list of nodes. -/
def stringifyForest : List Node → String
  | [] => ""
  | [n] => stringifyNode n
  | n :: rest => stringifyNode n ++ "," ++ stringifyForest rest

end

/-- Serialization of a sha map (a JS object, in insertion order). -/
def stringifyShaMap : List (String × String) → String
  | [] => "\x7b\x7d"
  | m => "\x7b" ++ String.intercalate ","
      (m.map fun p => jstr p.1 ++ ":" ++ jstr p.2) ++ "\x7d"

/-- Serialization of a snapshot, `JSON.stringify(data)` at
`src/api/index.js` line 148 (the source field `structure` is serialized
under its source name). -/
def stringifySnapshot (s : Snapshot) : String :=
  "\x7b\"structure\":[" ++ stringifyForest s.struct ++ "],\"shaMap\":" ++
    stringifyShaMap s.shaMap ++ "\x7d"

/-- One server-sent event frame, the string written at `src/api/index.js`
line 151. -/
def sseMsg (s : Snapshot) : String :=
  "data: " ++ stringifySnapshot s ++ "\n\n"

/-- One streaming subscriber: whether its channel still accepts writes, and
the frames written to it so far. -/
structure Client where
  alive : Bool
  sent : List String
deriving DecidableEq

/-- Embedding of `broadcast(data)`, `src/api/index.js` lines 147-156: the
snapshot is serialized once and the frame is written to every subscriber;
a subscriber whose write throws is removed from the set.  There is no
record of a previously sent payload: every call writes to every live
subscriber. -/
def broadcast (data : Snapshot) (clients : List Client) : List Client :=
  let json := stringifySnapshot data
  clients.filterMap fun c =>
    if c.alive then some { c with sent := c.sent ++ ["data: " ++ json ++ "\n\n"] }
    else none

/-- One tick of the interval callback installed by `startWatcher`
(`src/api/index.js` lines 165-172): assemble a snapshot and broadcast it.
The snapshot assembly of the model is total, so the `catch` branch (which
only logs) is not reachable here. -/
def pollCycle (fuel : Nat) (remote : Remote) (clients : List Client) : List Client :=
  broadcast (getSnapshot fuel remote) clients

/-- Module-level watcher state of `src/api/index.js`: the `watching` flag
(line 4) and the number of `setInterval` schedules installed. -/
structure ProcState where
  watching : Bool
  intervals : Nat
deriving DecidableEq

/-- Watcher state at process start: not watching, no interval installed. -/
def initState : ProcState :=
  { watching := false, intervals := 0 }

/-- Embedding of `startWatcher()`, `src/api/index.js` lines 161-173: return
unchanged when already watching, otherwise set the flag and install one
recurring interval. -/
def startWatcher (s : ProcState) : ProcState :=
  if s.watching then s else { watching := true, intervals := s.intervals + 1 }

/-- One remote HTTP call issued by a CRUD operation, in issue order: the
metadata GET, the PUT (whose body carries the message, the base64-encoded
content and the optional sha token), and the DELETE (message and sha). -/
inductive RemoteCall where
  | get (path : String) : RemoteCall
  | put (path message content : String) (sha : Option String) : RemoteCall
  | del (path message sha : String) : RemoteCall
deriving DecidableEq

/-- Result value of a CRUD operation as returned to the route handler:
`body r` is a passthrough of the remote response JSON text (`resp.json()`),
`fileNotFound` is the literal `{error: "File not found"}` object, and
`moveSuccess` the `{success: true, moved: old -> new}` object. -/
inductive MutationResult where
  | body (r : String) : MutationResult
  | fileNotFound : MutationResult
  | moveSuccess (oldPath newPath : String) : MutationResult
deriving DecidableEq

/-- Embedding of `saveFile(path, content, message)`, `src/api/index.js`
lines 180-209: GET the path, keep its sha when the status is 200, then PUT
the new content with that sha and return the response body.  `enc` is the
base64 encoding `Buffer.from(content).toString("base64")`. -/
def saveFile (enc : String → String) (remote : Remote)
    (path content message : String) : MutationResult × List RemoteCall :=
  let sha : Option String :=
    if remote.getStatus path = 200 then some (remote.getSha path) else none
  (.body (remote.putResult path), [.get path, .put path message (enc content) sha])

/-- Embedding of `removeFile(path, message)`, `src/api/index.js`
lines 212-237: GET the path; on a non-200 status return
`{error: "File not found"}` without issuing a DELETE; otherwise DELETE with
the current sha and return the response body. -/
def removeFile (remote : Remote) (path message : String) :
    MutationResult × List RemoteCall :=
  if remote.getStatus path = 200 then
    (.body (remote.deleteResult path),
     [.get path, .del path message (remote.getSha path)])
  else (.fileNotFound, [.get path])

/-- Embedding of `moveFile(oldPath, newPath, message)`, `src/api/index.js`
lines 240-261: GET the old path; on a non-200 status return
`{error: "File not found"}` with no further calls; otherwise decode its
content (`dec` is the base64 decode at line 252), `saveFile` it at the new
path, `removeFile` the old path, and return `{success: true, moved: ...}`
without examining either result. -/
def moveFile (enc dec : String → String) (remote : Remote)
    (oldPath newPath message : String) : MutationResult × List RemoteCall :=
  if remote.getStatus oldPath = 200 then
    let content := dec (remote.getContent oldPath)
    let save := saveFile enc remote newPath content message
    let remv := removeFile remote oldPath message
    (.moveSuccess oldPath newPath, .get oldPath :: (save.2 ++ remv.2))
  else (.fileNotFound, [.get oldPath])

/-!
The mutation routes of the HTTP handler, `src/api/index.js` lines 297-359.
Request body fields are `Option String` (`none` is JS `undefined`).
-/

/-- JS truthiness test used by the guards `!path` and `!req.body.newPath`:
an absent field or the empty string is falsy. -/
def falsyStr : Option String → Bool
  | none => true
  | some s => s == ""

/-- JS `message || "default"`: an absent or empty message is replaced. -/
def orFalsy (m : Option String) (d : String) : String :=
  match m with
  | none => d
  | some s => if s == "" then d else s

/-- JS string interpolation of a possibly-undefined value: `undefined`
interpolates as the text "undefined" in the request URL. -/
def jsArg (m : Option String) : String :=
  match m with
  | none => "undefined"
  | some s => s

/-- JS default parameter `message = "move file"` of `moveFile`: only an
absent (undefined) argument takes the default; an empty string does not. -/
def moveMsg (m : Option String) : String :=
  match m with
  | none => "move file"
  | some s => s

/-- Response body of a mutation route: the two 400 error objects, the 405
object, or the 200 passthrough of the operation's result. -/
inductive RespBody where
  | missingPathOrContent : RespBody
  | missingPath : RespBody
  | methodNotAllowed : RespBody
  | opResult (r : MutationResult) : RespBody
deriving DecidableEq

/-- Embedding of the mutation route section of the handler,
`src/api/index.js` lines 297-359, reached for non-OPTIONS, non-GET methods:
POST (lines 298-312) and PUT (lines 315-340) validate `path`/`content`,
run `saveFile` (or `moveFile` when `action` is "move" with a truthy
`newPath`), then assemble a snapshot, broadcast it, and answer 200 with the
operation's result — whatever that result is; DELETE (lines 343-357) does
the same with `removeFile`; any other method answers 405 (line 359).
Returns the status code, the response body, and the subscriber set after
the broadcast. -/
def mutationRoutes (enc dec : String → String) (fuel : Nat) (remote : Remote)
    (method : String) (path content message action newPath : Option String)
    (clients : List Client) : (Nat × RespBody) × List Client :=
  if method == "POST" then
    if falsyStr path || content.isNone then
      ((400, .missingPathOrContent), clients)
    else
      let r := saveFile enc remote (jsArg path) (jsArg content) (orFalsy message "create file")
      ((200, .opResult r.1), broadcast (getSnapshot fuel remote) clients)
  else if method == "PUT" then
    if action == some "move" && !(falsyStr newPath) then
      let r := moveFile enc dec remote (jsArg path) (jsArg newPath) (moveMsg message)
      ((200, .opResult r.1), broadcast (getSnapshot fuel remote) clients)
    else if falsyStr path || content.isNone then
      ((400, .missingPathOrContent), clients)
    else
      let r := saveFile enc remote (jsArg path) (jsArg content) (orFalsy message "update file")
      ((200, .opResult r.1), broadcast (getSnapshot fuel remote) clients)
  else if method == "DELETE" then
    if falsyStr path then
      ((400, .missingPath), clients)
    else
      let r := removeFile remote (jsArg path) (orFalsy message "delete file")
      ((200, .opResult r.1), broadcast (getSnapshot fuel remote) clients)
  else ((405, .methodNotAllowed), clients)

/-!
Concrete oracles and inputs used by the witnesses and counterexamples.
-/

/-- Remote with an empty repository: every listing is an empty array, every
metadata GET answers 404, PUT and DELETE answer an empty object. -/
def emptyRemote : Remote where
  listing := fun _ => .arr []
  fetchFile := fun _ => .exn "network error"
  getStatus := fun _ => 404
  getSha := fun _ => ""
  getContent := fun _ => ""
  putResult := fun _ => "\x7b\x7d"
  deleteResult := fun _ => "\x7b\x7d"
  download := fun _ => .ok ""

/-- Empty snapshot value. -/
def snapEmpty : Snapshot :=
  { struct := [], shaMap := [] }

/-- A non-array listing body: GitHub's Not Found error object. -/
def nfBody : String := "\x7b\"message\":\"Not Found\"\x7d"

/-- Remote whose listings are all unrecognizable (a Not Found object
instead of an array). -/
def remoteBadList : Remote :=
  { emptyRemote with listing := fun _ => .nonArray nfBody }

/-- Remote whose listings are all unrecognizable (a rate-limit string). -/
def remoteBadList2 : Remote :=
  { emptyRemote with listing := fun _ => .nonArray "\"rate limited\"" }

/-- Small tree with pairwise distinct paths: one directory holding one file
plus one top-level file. -/
def t4 : List Node :=
  [.dir "docs" "sha1" "docs" [.file "a.txt" "sha2" "docs/a.txt" none none 5 "u1"],
   .file "readme.md" "sha3" "readme.md" none none 7 "u2"]

/-- Listing entry of a file whose content fetch succeeds. -/
def eGood : RawEntry :=
  { name := "ok.txt", type := "file", sha := "shaG", path := "dir/ok.txt",
    size := 3, html_url := "uG", download_url := "dG" }

/-- Listing entry of a file whose content fetch fails with HTTP 500. -/
def eBad : RawEntry :=
  { name := "bad.txt", type := "file", sha := "shaB", path := "dir/bad.txt",
    size := 9, html_url := "uB", download_url := "dB" }

/-- Remote holding one directory with a healthy file and a file whose
content fetch fails. -/
def remote5 : Remote :=
  { emptyRemote with
    listing := fun p => if p == "dir" then .arr [eGood, eBad] else .arr [],
    fetchFile := fun p => if p == "dir/ok.txt" then .ok "hi" else .httpError 500 }

/-- Remote where only "a.txt" exists (status 200, sha "sha-a", base64
content); every other path answers 404. -/
def remoteMix : Remote :=
  { emptyRemote with
    getStatus := fun p => if p == "a.txt" then 200 else 404,
    getSha := fun _ => "sha-a",
    getContent := fun _ => "aGVsbG8=" }

/-- Remote where every path exists but every write and delete is rejected
by the store (the response bodies are error objects). -/
def remoteFailWrites : Remote :=
  { emptyRemote with
    getStatus := fun _ => 200,
    putResult := fun _ => "\x7b\"message\":\"Validation Failed\",\"status\":\"422\"\x7d",
    deleteResult := fun _ => "\x7b\"message\":\"Conflict\",\"status\":\"409\"\x7d" }

/-- Syntactically valid JSON whose only string value contains a URL with
two slashes. -/
def c9input : String := "\x7b\"homepage\": \"https://example.com\"\x7d"

/-!
Helper lemmas shared by several claims.
-/

/-- Broadcast to a single live subscriber appends exactly one frame. -/
theorem broadcast_one (s : Snapshot) (l : List String) :
    broadcast s [⟨true, l⟩] = [⟨true, l ++ [sseMsg s]⟩] := rfl

/-!
Claim theorems.
-/

/-- C1 (counterexample): with a fixed remote store, two consecutive poll
cycles assemble identical snapshots — the fingerprint maps are unchanged —
yet the second cycle still writes a second, identical frame to the
subscriber.  The claim says an unchanged cycle does nothing observable;
the code's interval callback (lines 165-172) has no cached snapshot and no
fingerprint comparison, it broadcasts every time. -/
theorem c1_counterexample :
    pollCycle 1 emptyRemote (pollCycle 1 emptyRemote [⟨true, []⟩]) =
      [⟨true, [sseMsg (getSnapshot 1 emptyRemote), sseMsg (getSnapshot 1 emptyRemote)]⟩] := rfl

/-- C1 (amended): while the watcher runs, every poll cycle assembles a
fresh snapshot and unconditionally broadcasts it to every live subscriber —
regardless of what was already sent, hence also when the fingerprints are
unchanged. -/
theorem c1_amended_poll_broadcasts_unconditionally
    (fuel : Nat) (remote : Remote) (l : List String) :
    pollCycle fuel remote [⟨true, l⟩] =
      [⟨true, l ++ [sseMsg (getSnapshot fuel remote)]⟩] := rfl

/-- C2 (counterexample): broadcasting the same snapshot twice in a row —
the serialized forms are equal — writes two frames to the subscriber, not
one: `broadcast` (lines 147-156) keeps no last-sent payload and never
skips a write. -/
theorem c2_counterexample :
    broadcast snapEmpty (broadcast snapEmpty [⟨true, []⟩]) =
      [⟨true, [sseMsg snapEmpty, sseMsg snapEmpty]⟩] := rfl

/-- C2 (amended): calling `broadcast` twice in a row with snapshots whose
serialized forms are equal results in two writes to each registered live
subscriber; there is no deduplication of any kind. -/
theorem c2_amended_broadcast_no_dedup (s : Snapshot) (l : List String) :
    broadcast s (broadcast s [⟨true, l⟩]) =
      [⟨true, l ++ [sseMsg s, sseMsg s]⟩] := by
  simp [broadcast, sseMsg]

/-- C3 (counterexample): when the collaborator answers something that is
not a directory listing, `readFolder` of `src/api/index.js` (line 51)
returns the empty list — the very same value it returns for a genuinely
empty repository — so no `RemoteListError` reaches the caller; the failure
is silently swallowed. -/
theorem c3_counterexample :
    remoteBadList.listing "" = .nonArray nfBody ∧
    readFolder 3 remoteBadList "" = [] ∧
    readFolder 3 emptyRemote "" = [] :=
  ⟨rfl, rfl, rfl⟩

/-- C3 (amended): on an unrecognizable directory listing the current
revision (`src/api/index.js`) returns an empty child list, indistinguishable
from an empty directory; only the earlier `src/unnamed/part_000` revision
propagates an in-band error object `{error: true, raw}` to its caller. -/
theorem c3_amended_nonlisting_swallowed_or_inband
    (fuel : Nat) (remote : Remote) (path raw : String)
    (h : remote.listing path = .nonArray raw) :
    readFolder (fuel + 1) remote path = [] ∧
    readFolderV0 (fuel + 1) remote path = .errorRaw raw := by
  constructor
  · simp [readFolder, h]
  · simp [readFolderV0, h]

/-- C3 (witness): the amended statement at a concrete remote whose listing
body is a quoted rate-limit string. -/
theorem c3_witness :
    remoteBadList2.listing "" = .nonArray "\"rate limited\"" ∧
    (readFolder 1 remoteBadList2 "" = [] ∧
     readFolderV0 1 remoteBadList2 "" = .errorRaw "\"rate limited\"") :=
  ⟨rfl, c3_amended_nonlisting_swallowed_or_inband 0 remoteBadList2 "" "\"rate limited\"" rfl⟩

/-- C6: the watcher state machine moves from idle to running at most once:
any positive number of `startWatcher` calls from the initial state leaves
exactly one recurring interval installed (`src/api/index.js`
lines 161-163). -/
theorem c6_startWatcher_idempotent (n : Nat) (h : 0 < n) :
    startWatcher^[n] initState = { watching := true, intervals := 1 } := by
  induction n with
  | zero => cases h
  | succ k ih =>
    cases k with
    | zero => rfl
    | succ m =>
      rw [Function.iterate_succ_apply', ih (Nat.succ_pos m)]
      rfl

/-- C6 (witness): starting the watcher twice installs exactly one
interval. -/
theorem c6_witness :
    0 < 2 ∧ startWatcher^[2] initState = { watching := true, intervals := 1 } :=
  ⟨by decide, c6_startWatcher_idempotent 2 (by decide)⟩

/-- C9: `parseContent` never fails — it returns either a parsed JSON value
or the raw input unchanged — and the comment-stripping regexes apply inside
JSON string literals: `c9input` is syntactically valid JSON, yet cleaning
mutilates it (the `//` of the URL starts a "comment"), `JSON.parse` then
fails, and the file is returned as its raw unmodified text. -/
theorem c9_parseContent_url_comment_bug :
    (∀ raw name, (∃ v, parseContent raw name = .json v) ∨ parseContent raw name = .text raw)
    ∧ (jsonParse c9input).isSome = true
    ∧ cleanJson c9input ≠ c9input
    ∧ parseContent c9input "config.json" = .text c9input := by
  refine ⟨?_, rfl, by decide, rfl⟩
  intro raw name
  by_cases h : strEndsWith name ".json" = true
  · cases hj : jsonParse (cleanJson raw) with
    | some v => exact Or.inl ⟨v, by simp [parseContent, h, hj]⟩
    | none => exact Or.inr (by simp [parseContent, h, hj])
  · exact Or.inr (by simp [parseContent, h])

/-- C10: whenever the initial read of `oldPath` answers 200, `moveFile`
returns the success object — for every remote store, hence also when the
subsequent save or delete is rejected: the results of those two calls are
never examined (`src/api/index.js` lines 255-260). -/
theorem c10_moveFile_blind_success (enc dec : String → String) (remote : Remote)
    (oldPath newPath message : String) (h : remote.getStatus oldPath = 200) :
    (moveFile enc dec remote oldPath newPath message).1 =
      .moveSuccess oldPath newPath := by
  simp [moveFile, h]

/-- C10 (witness): against a store that rejects every write and delete,
`moveFile` still reports success. -/
theorem c10_witness :
    remoteFailWrites.getStatus "a.txt" = 200 ∧
    (moveFile id id remoteFailWrites "a.txt" "b.txt" "mv").1 =
      .moveSuccess "a.txt" "b.txt" :=
  ⟨rfl, c10_moveFile_blind_success id id remoteFailWrites "a.txt" "b.txt" "mv" rfl⟩

/-- Key membership of a JS object update: the updated object's keys are the
old keys plus the assigned key. -/
theorem mem_keysOf_objSet (m : List (String × String)) (k v x : String) :
    x ∈ keysOf (objSet m k v) ↔ x = k ∨ x ∈ keysOf m := by
  unfold objSet keysOf
  by_cases h : m.any (fun p => p.1 == k) = true
  · rw [if_pos h]
    simp only [List.map_map, List.mem_map, Function.comp]
    constructor
    · rintro ⟨p, hp, hx⟩
      by_cases hpk : p.1 = k
      · left
        have : (p.1 == k) = true := beq_iff_eq.2 hpk
        rw [if_pos this] at hx
        exact hx.symm
      · right
        have : (p.1 == k) = false := beq_eq_false_iff_ne.2 hpk
        rw [this] at hx
        simp at hx
        exact ⟨p, hp, hx⟩
    · rintro (rfl | ⟨p, hp, rfl⟩)
      · rw [List.any_eq_true] at h
        obtain ⟨q, hq, hqk⟩ := h
        exact ⟨q, hq, by simp [hqk]⟩
      · by_cases hpk : p.1 = k
        · exact ⟨p, hp, by simp [hpk]⟩
        · have : (p.1 == k) = false := beq_eq_false_iff_ne.2 hpk
          exact ⟨p, hp, by rw [this]; simp⟩
  · rw [if_neg h, List.map_append]
    simp only [List.mem_append, List.map_cons, List.map_nil, List.mem_singleton]
    exact or_comm

/-- Key membership of the sha-map traversal: the keys of `traverse items
acc` are the node paths of `items` together with the keys of the
accumulator. -/
theorem mem_keysOf_traverseSha :
    ∀ (items : List Node) (acc : List (String × String)) (x : String),
      x ∈ keysOf (traverseSha items acc) ↔ x ∈ pathsF items ∨ x ∈ keysOf acc
  | [], acc, x => by simp [traverseSha, pathsF]
  | .dir n sha p cs :: rest, acc, x => by
    simp only [traverseSha]
    rw [mem_keysOf_traverseSha rest (traverseSha cs (objSet acc p sha)) x,
      mem_keysOf_traverseSha cs (objSet acc p sha) x,
      mem_keysOf_objSet acc p sha x]
    simp only [pathsF, List.mem_cons, List.mem_append]
    tauto
  | .file n sha p co er sz u :: rest, acc, x => by
    simp only [traverseSha]
    rw [mem_keysOf_traverseSha rest (objSet acc p sha) x,
      mem_keysOf_objSet acc p sha x]
    simp only [pathsF, List.mem_cons]
    tauto
termination_by items _ _ => sizeOf items

/-- C4: for every tree whose node paths are pairwise distinct, the key set
of `buildShaMap` is exactly the set of all node paths — file and directory
nodes alike (`src/api/index.js` lines 123-135). -/
theorem c4_buildShaMap_keys (t : List Node) (k : String)
    (_h : (pathsF t).Nodup) :
    k ∈ keysOf (buildShaMap t) ↔ k ∈ pathsF t := by
  have hm := mem_keysOf_traverseSha t [] k
  simpa [buildShaMap, keysOf] using hm

/-- C4 (witness): the key set on a concrete two-level tree. -/
theorem c4_witness :
    (pathsF t4).Nodup ∧
    (("docs/a.txt" ∈ keysOf (buildShaMap t4)) ↔ "docs/a.txt" ∈ pathsF t4) :=
  ⟨by simp [t4, pathsF], c4_buildShaMap_keys t4 "docs/a.txt" (by simp [t4, pathsF])⟩

/-- One unfolding step of `readFolder` on a listing that is an array: one
node per entry, via `entryNode`. -/
theorem readFolder_succ (fuel : Nat) (remote : Remote) (path : String)
    (entries : List RawEntry) (h : remote.listing path = .arr entries) :
    readFolder (fuel + 1) remote path = entries.map (entryNode fuel remote) := by
  simp only [readFolder, h]
  rfl

/-- Name and path of the node built from a listing entry are the entry's
name and path, in every branch of the loop body. -/
theorem entryNode_nameOf_pathOf (fuel : Nat) (remote : Remote) (item : RawEntry) :
    (entryNode fuel remote item).nameOf = item.name ∧
    (entryNode fuel remote item).pathOf = item.path := by
  cases hf : remote.fetchFile item.path <;>
    by_cases h : (item.type == "dir") = true <;>
      simp [entryNode, h, hf, Node.nameOf, Node.pathOf]

/-- C5: in every directory listing containing a file entry whose content
fetch fails, the assembled result still holds that file's node with
`content = null` and an `error` string, the result has one node per entry,
and every sibling entry appears with its name and path
(`src/api/index.js` lines 63-117). -/
theorem c5_failed_fetch_degrades_node (fuel : Nat) (remote : Remote) (dirPath : String)
    (entries : List RawEntry) (e : RawEntry)
    (hl : remote.listing dirPath = .arr entries)
    (he : e ∈ entries)
    (ht : (e.type == "dir") = false)
    (hf : (remote.fetchFile e.path).isOk = false) :
    (∃ err, Node.file e.name e.sha e.path none (some err) e.size e.html_url
        ∈ readFolder (fuel + 1) remote dirPath)
    ∧ (readFolder (fuel + 1) remote dirPath).length = entries.length
    ∧ ∀ e2 ∈ entries, ∃ n ∈ readFolder (fuel + 1) remote dirPath,
        n.nameOf = e2.name ∧ n.pathOf = e2.path := by
  rw [readFolder_succ fuel remote dirPath entries hl]
  refine ⟨?_, List.length_map _ _, ?_⟩
  · cases hfr : remote.fetchFile e.path with
    | ok c =>
      rw [hfr] at hf
      simp [FetchResult.isOk] at hf
    | httpError st =>
      exact ⟨"Failed to fetch content: " ++ toString st,
        List.mem_map.2 ⟨e, he, by simp [entryNode, ht, hfr]⟩⟩
    | exn msg =>
      exact ⟨msg, List.mem_map.2 ⟨e, he, by simp [entryNode, ht, hfr]⟩⟩
  · intro e2 he2
    exact ⟨entryNode fuel remote e2, List.mem_map.2 ⟨e2, he2, rfl⟩,
      (entryNode_nameOf_pathOf fuel remote e2).1,
      (entryNode_nameOf_pathOf fuel remote e2).2⟩

/-- C5 (witness): the failing file of `remote5` appears as an error node,
and its healthy sibling is still listed. -/
theorem c5_witness :
    ((eBad.type == "dir") = false ∧ (remote5.fetchFile eBad.path).isOk = false) ∧
    ((∃ err, Node.file eBad.name eBad.sha eBad.path none (some err) eBad.size eBad.html_url
        ∈ readFolder 1 remote5 "dir")
     ∧ (readFolder 1 remote5 "dir").length = [eGood, eBad].length
     ∧ ∀ e2 ∈ [eGood, eBad], ∃ n ∈ readFolder 1 remote5 "dir",
         n.nameOf = e2.name ∧ n.pathOf = e2.path) :=
  ⟨⟨by decide, by decide⟩,
   c5_failed_fetch_degrades_node 0 remote5 "dir" [eGood, eBad] eBad rfl
     (by decide) (by decide) (by decide)⟩

/-- C7: `removeFile` on a path whose metadata GET is not 200 answers
`{error: "File not found"}` and issues no DELETE; `moveFile` on such an
`oldPath` answers the same and performs no writes at all; and on an
existing `oldPath` the remote calls of `moveFile` are, in order: read the
old file, save its content at `newPath` (a GET then a PUT), then remove
`oldPath` (a GET then a DELETE) — the save strictly before the delete
(`src/api/index.js` lines 212-261). -/
theorem c7_remove_and_move_guards (enc dec : String → String) (remote : Remote)
    (p oldPath newPath message : String) :
    (remote.getStatus p ≠ 200 →
      removeFile remote p message = (.fileNotFound, [.get p]))
    ∧ (remote.getStatus oldPath ≠ 200 →
      moveFile enc dec remote oldPath newPath message = (.fileNotFound, [.get oldPath]))
    ∧ (remote.getStatus oldPath = 200 →
      moveFile enc dec remote oldPath newPath message =
        (.moveSuccess oldPath newPath,
         [.get oldPath, .get newPath,
          .put newPath message (enc (dec (remote.getContent oldPath)))
            (if remote.getStatus newPath = 200 then some (remote.getSha newPath) else none),
          .get oldPath, .del oldPath message (remote.getSha oldPath)])) := by
  refine ⟨fun h => ?_, fun h => ?_, fun h => ?_⟩
  · simp [removeFile, h]
  · simp [moveFile, h]
  · simp [moveFile, saveFile, removeFile, h]

/-- C7 (witness): the three branches at `remoteMix`, where only "a.txt"
exists: deleting or moving a missing path yields the not-found object with
only the probe GET issued; moving "a.txt" to "b.txt" issues
GET, GET, PUT, GET, DELETE with the save before the delete. -/
theorem c7_witness :
    (remoteMix.getStatus "gone.txt" ≠ 200 ∧
      removeFile remoteMix "gone.txt" "rm" = (.fileNotFound, [.get "gone.txt"]))
    ∧ (remoteMix.getStatus "missing.txt" ≠ 200 ∧
      moveFile id id remoteMix "missing.txt" "new.txt" "mv" =
        (.fileNotFound, [.get "missing.txt"]))
    ∧ (remoteMix.getStatus "a.txt" = 200 ∧
      moveFile id id remoteMix "a.txt" "b.txt" "mv" =
        (.moveSuccess "a.txt" "b.txt",
         [.get "a.txt", .get "b.txt", .put "b.txt" "mv" "aGVsbG8=" none,
          .get "a.txt", .del "a.txt" "mv" "sha-a"])) := by
  have hA := (c7_remove_and_move_guards id id remoteMix "gone.txt" "x" "y" "rm").1
  have hB := (c7_remove_and_move_guards id id remoteMix "z" "missing.txt" "new.txt" "mv").2.1
  have hC := (c7_remove_and_move_guards id id remoteMix "z" "a.txt" "b.txt" "mv").2.2
  refine ⟨⟨by decide, hA (by decide)⟩, ⟨by decide, hB (by decide)⟩, ⟨by decide, ?_⟩⟩
  simpa [remoteMix, emptyRemote] using hC (by decide)

/-- C8: for each mutation route — POST, PUT (update), PUT (move), DELETE —
with its required body fields present, the handler runs the remote
operation, assembles a fresh snapshot, broadcasts it to the subscriber, and
answers HTTP 200 with the operation's result object as the body, for every
remote store; in particular when the operation's result is an error object,
so failed and successful mutations are indistinguishable by status code and
both broadcast (`src/api/index.js` lines 297-357). -/
theorem c8_mutations_always_200_and_broadcast (enc dec : String → String)
    (fuel : Nat) (remote : Remote) (l : List String) :
    (∀ p c m, falsyStr p = false →
      mutationRoutes enc dec fuel remote "POST" p (some c) m none none [⟨true, l⟩] =
        ((200, .opResult (saveFile enc remote (jsArg p) c (orFalsy m "create file")).1),
         [⟨true, l ++ [sseMsg (getSnapshot fuel remote)]⟩]))
    ∧ (∀ p c m, falsyStr p = false →
      mutationRoutes enc dec fuel remote "PUT" p (some c) m none none [⟨true, l⟩] =
        ((200, .opResult (saveFile enc remote (jsArg p) c (orFalsy m "update file")).1),
         [⟨true, l ++ [sseMsg (getSnapshot fuel remote)]⟩]))
    ∧ (∀ p np m c, falsyStr np = false →
      mutationRoutes enc dec fuel remote "PUT" p c m (some "move") np [⟨true, l⟩] =
        ((200, .opResult (moveFile enc dec remote (jsArg p) (jsArg np) (moveMsg m)).1),
         [⟨true, l ++ [sseMsg (getSnapshot fuel remote)]⟩]))
    ∧ (∀ p m, falsyStr p = false →
      mutationRoutes enc dec fuel remote "DELETE" p none m none none [⟨true, l⟩] =
        ((200, .opResult (removeFile remote (jsArg p) (orFalsy m "delete file")).1),
         [⟨true, l ++ [sseMsg (getSnapshot fuel remote)]⟩])) := by
  refine ⟨fun p c m h => ?_, fun p c m h => ?_, fun p np m c h => ?_, fun p m h => ?_⟩ <;>
    simp [mutationRoutes, h, broadcast_one, jsArg]

/-- C8 (witness): a DELETE of a path that does not exist at `emptyRemote`
is answered 200 with the not-found error object as the body, and the
subscriber still receives one snapshot frame. -/
theorem c8_witness :
    falsyStr (some "notes.txt") = false ∧
    mutationRoutes id id 1 emptyRemote "DELETE" (some "notes.txt") none (some "bye")
        none none [⟨true, []⟩] =
      ((200, .opResult .fileNotFound),
       [⟨true, [sseMsg (getSnapshot 1 emptyRemote)]⟩]) := by
  refine ⟨by decide, ?_⟩
  have h := (c8_mutations_always_200_and_broadcast id id 1 emptyRemote []).2.2.2
    (some "notes.txt") (some "bye") (by decide)
  simpa [removeFile, emptyRemote, jsArg, orFalsy] using h
